import Mathlib

/-!
Verification of the freight-quote application against its design document.

The embedding below is a shallow model of the source:

* Every number the program can reach is an exact decimal, so JavaScript
  numbers are modelled as `Option ℚ`: `some q` is the ordinary number `q`
  and `none` is `NaN` (for example the result of arithmetic on the
  `undefined` produced by looking up a missing key of the `multipliers`
  object).  All constants are written with the same literals as the source.
* `localStorage` is a string-keyed store; the distance-cache portion is an
  association list from the literal key `origin ++ "-" ++ destination` to
  the stored distance (stored values round-trip exactly through
  `String`/`parseFloat`, so the value is kept as `ℚ`).  The `quotes` key and
  the in-memory quotes state are written together with the same list, so a
  single `List Quote` stands for both.
* `pickupDate` is an `input type=date` value: the empty string (modelled as
  `none`) or a calendar date, modelled as `some n` where `n` is its
  numeric `Date` value; comparisons of valid date strings agree with the
  comparisons of these numbers.
* A weight form field is observed by the code only through its truthiness
  (`!weight`) and through `parseFloat(weight)`; it is modelled by that pair,
  with `none` standing for a `NaN` parse.
* `Array.prototype.sort` is stable (ECMAScript 2019) and deterministic for
  the total preorder given by the `sortQuotes` comparator, so it is modelled
  by `List.insertionSort`, which is a stable sort and therefore produces the
  same list.
* The Distance Matrix collaborator is an oracle `CollabResult`: a metre
  value, a `ZERO_RESULTS` status, or a network/shape failure (in the source
  the promise rejection is caught and `console.error` makes the call resolve
  to `undefined`).
-/

namespace FreightQuote

/-- JavaScript numbers reachable in this program: `none` is `NaN`. -/
abbrev JSNum := Option ℚ

/-- Addition on JavaScript numbers: `NaN` propagates. -/
def jadd : JSNum → JSNum → JSNum
  | some a, some b => some (a + b)
  | _, _ => none

/-- Multiplication on JavaScript numbers: `NaN` propagates. -/
def jmul : JSNum → JSNum → JSNum
  | some a, some b => some (a * b)
  | _, _ => none

/-- The itemized price breakdown returned by `calculateTotal`
(file part_000, lines 506 to 512), field order as in the source object. -/
structure Breakdown where
  total : JSNum
  baseRate : JSNum
  weightFactor : JSNum
  fuelSurcharge : JSNum
  equipmentCharge : JSNum
deriving DecidableEq

/-- The `multipliers` object literal inside `calculateTotal`
(part_000, lines 493 to 497); a lookup with an unknown key yields
`undefined`, whose use in arithmetic is `NaN`, hence `none`. -/
def multipliers (equipmentType : String) : JSNum :=
  if equipmentType = "dry_van" then some 0
  else if equipmentType = "reefer" then some 0.3
  else if equipmentType = "flatbed" then some 0.15
  else none

/-- The rate calculator `calculateTotal` (part_000, lines 488 to 513),
translated line by line; `weight` and `distance` are plain numbers at every
call site (the handler field check rejects a `NaN` weight and the resolved
distance is always a number when this runs). -/
def calculateTotal (distance weight : ℚ) (equipmentType : String) : Breakdown :=
  let avgKmRate : ℚ := 1.616
  let fuelSurchargePercent : ℚ := if weight < 10000 then 0.237 else 0.557
  let baseRate : ℚ := avgKmRate * distance
  let weightFactor : ℚ := if weight > 10000 then ((weight - 10000) / 100) * 0.1 else 0
  let equipmentCharge : JSNum := jmul (some baseRate) (multipliers equipmentType)
  let fuelSurcharge : JSNum := jmul (jadd (some baseRate) equipmentCharge) (some fuelSurchargePercent)
  { total := jadd (jadd (jadd (some baseRate) equipmentCharge) fuelSurcharge) (some weightFactor)
    baseRate := some baseRate
    weightFactor := some weightFactor
    fuelSurcharge := fuelSurcharge
    equipmentCharge := equipmentCharge }

/-- C4: for every distance at least 0, weight above 0 and recognized
equipment type, the breakdown satisfies
total = baseRate + equipmentCharge + fuelSurcharge + weightFactor exactly,
at the precision used throughout (exact rational currency amounts,
no rounding before display). -/
theorem C4_total_is_sum_of_parts (d w : ℚ) (e : String)
    (hd : 0 ≤ d) (hw : 0 < w)
    (he : e = "dry_van" ∨ e = "reefer" ∨ e = "flatbed") :
    ∃ b ec fs wf : ℚ,
      (calculateTotal d w e).baseRate = some b ∧
      (calculateTotal d w e).equipmentCharge = some ec ∧
      (calculateTotal d w e).fuelSurcharge = some fs ∧
      (calculateTotal d w e).weightFactor = some wf ∧
      (calculateTotal d w e).total = some (b + ec + fs + wf) := by
  rcases he with rfl | rfl | rfl <;>
    exact ⟨_, _, _, _, rfl, rfl, rfl, rfl, rfl⟩

/-- C4 witness: the sum invariant instantiated at the documented sample
input distance 100, weight 5000, dry van. -/
theorem C4_total_is_sum_of_parts_witness :
    ∃ b ec fs wf : ℚ,
      (calculateTotal 100 5000 "dry_van").baseRate = some b ∧
      (calculateTotal 100 5000 "dry_van").equipmentCharge = some ec ∧
      (calculateTotal 100 5000 "dry_van").fuelSurcharge = some fs ∧
      (calculateTotal 100 5000 "dry_van").weightFactor = some wf ∧
      (calculateTotal 100 5000 "dry_van").total = some (b + ec + fs + wf) :=
  C4_total_is_sum_of_parts 100 5000 "dry_van" (by decide) (by decide) (Or.inl rfl)

/-- C5 counterexample: the worked example of the specification is
miscomputed there.  On the 100 km, 15000 lb, reefer input the code yields
fuelSurcharge = (161.6 + 48.48) times 0.557 = 117.01456 and
total = 332.09456, not the stated 117.02896 and 332.10896. -/
theorem C5_counterexample :
    (calculateTotal 100 15000 "reefer").fuelSurcharge = some 117.01456 ∧
    (calculateTotal 100 15000 "reefer").fuelSurcharge ≠ some 117.02896 ∧
    (calculateTotal 100 15000 "reefer").total = some 332.09456 ∧
    (calculateTotal 100 15000 "reefer").total ≠ some 332.10896 := by
  have hfs : (calculateTotal 100 15000 "reefer").fuelSurcharge
      = some ((1.616 * 100 + 1.616 * 100 * 0.3) * 0.557 : ℚ) := rfl
  have ht : (calculateTotal 100 15000 "reefer").total
      = some ((1.616 * 100 + 1.616 * 100 * 0.3
          + (1.616 * 100 + 1.616 * 100 * 0.3) * 0.557
          + ((15000 - 10000) / 100) * 0.1) : ℚ) := rfl
  refine ⟨?_, ?_, ?_, ?_⟩
  · rw [hfs]; norm_num
  · rw [hfs]; norm_num
  · rw [ht]; norm_num
  · rw [ht]; norm_num

/-- C5 amended: the constants and steps are exactly as claimed
(base 1.616 per km; multipliers dry_van 0, reefer 0.3, flatbed 0.15; fuel
rate 0.237 below 10000 lb else 0.557; weight factor 0.1 per 100 lb strictly
above 10000, so weight exactly 10000 gets the 0.557 rate and a zero weight
factor), but the worked reefer example yields fuelSurcharge 117.01456 and
total 332.09456. -/
theorem C5_amended_constants (d w : ℚ) (e : String) (m : ℚ)
    (hm : multipliers e = some m) :
    (calculateTotal d w e).baseRate = some (1.616 * d) ∧
    (calculateTotal d w e).equipmentCharge = some (1.616 * d * m) ∧
    (calculateTotal d w e).fuelSurcharge
      = some ((1.616 * d + 1.616 * d * m) * (if w < 10000 then 0.237 else 0.557)) ∧
    (calculateTotal d w e).weightFactor
      = some (if w > 10000 then ((w - 10000) / 100) * 0.1 else 0) ∧
    (calculateTotal d w e).total
      = some (1.616 * d + 1.616 * d * m
          + (1.616 * d + 1.616 * d * m) * (if w < 10000 then 0.237 else 0.557)
          + (if w > 10000 then ((w - 10000) / 100) * 0.1 else 0)) ∧
    multipliers "dry_van" = some 0 ∧
    multipliers "reefer" = some 0.3 ∧
    multipliers "flatbed" = some 0.15 ∧
    (calculateTotal d 10000 e).weightFactor = some 0 ∧
    (calculateTotal d 10000 e).fuelSurcharge
      = some ((1.616 * d + 1.616 * d * m) * 0.557) ∧
    calculateTotal 100 15000 "reefer" =
      { total := some 332.09456
        baseRate := some 161.6
        weightFactor := some 5
        fuelSurcharge := some 117.01456
        equipmentCharge := some 48.48 } := by
  have hec : (calculateTotal d w e).equipmentCharge = some (1.616 * d * m) := by
    simp only [calculateTotal, hm, jmul, jadd]
  have hfs : (calculateTotal d w e).fuelSurcharge
      = some ((1.616 * d + 1.616 * d * m) * (if w < 10000 then 0.237 else 0.557)) := by
    simp only [calculateTotal, hm, jmul, jadd]
  have htot : (calculateTotal d w e).total
      = some (1.616 * d + 1.616 * d * m
          + (1.616 * d + 1.616 * d * m) * (if w < 10000 then 0.237 else 0.557)
          + (if w > 10000 then ((w - 10000) / 100) * 0.1 else 0)) := by
    simp only [calculateTotal, hm, jmul, jadd]
  have hwf0 : (calculateTotal d 10000 e).weightFactor = some 0 := by
    show some (if (10000 : ℚ) > 10000 then (((10000 : ℚ) - 10000) / 100) * 0.1 else 0) = some 0
    norm_num
  have hfs0 : (calculateTotal d 10000 e).fuelSurcharge
      = some ((1.616 * d + 1.616 * d * m) * 0.557) := by
    show jmul (jadd (some (1.616 * d)) (jmul (some (1.616 * d)) (multipliers e)))
        (some (if (10000 : ℚ) < 10000 then 0.237 else 0.557)) = _
    rw [hm]
    show some ((1.616 * d + 1.616 * d * m) * (if (10000 : ℚ) < 10000 then 0.237 else 0.557)) = _
    norm_num
  have hconc : calculateTotal 100 15000 "reefer" =
      { total := some 332.09456
        baseRate := some 161.6
        weightFactor := some 5
        fuelSurcharge := some 117.01456
        equipmentCharge := some 48.48 } := by
    show Breakdown.mk
        (some ((1.616 * 100 + 1.616 * 100 * 0.3
          + (1.616 * 100 + 1.616 * 100 * 0.3) * 0.557
          + ((15000 - 10000) / 100) * 0.1) : ℚ))
        (some (1.616 * 100 : ℚ))
        (some (((15000 - 10000) / 100) * 0.1 : ℚ))
        (some ((1.616 * 100 + 1.616 * 100 * 0.3) * 0.557 : ℚ))
        (some (1.616 * 100 * 0.3 : ℚ)) = _
    simp only [Breakdown.mk.injEq, Option.some.injEq]
    norm_num
  exact ⟨rfl, hec, hfs, rfl, htot, rfl, rfl, rfl, hwf0, hfs0, hconc⟩

/-- C5 amended witness: the per-field formulas instantiated at distance
100, weight 15000, reefer. -/
theorem C5_amended_constants_witness :
    (calculateTotal 100 15000 "reefer").baseRate = some (1.616 * 100) ∧
    (calculateTotal 100 15000 "reefer").equipmentCharge = some (1.616 * 100 * 0.3) ∧
    (calculateTotal 100 15000 "reefer").fuelSurcharge
      = some ((1.616 * 100 + 1.616 * 100 * 0.3)
          * (if (15000 : ℚ) < 10000 then 0.237 else 0.557)) :=
  ⟨(C5_amended_constants 100 15000 "reefer" 0.3 rfl).1,
   (C5_amended_constants 100 15000 "reefer" 0.3 rfl).2.1,
   (C5_amended_constants 100 15000 "reefer" 0.3 rfl).2.2.1⟩

/-- C3 counterexample: `calculateTotal` never signals an InvalidInputError.
At the non-positive weight -5 it produces an ordinary numeric breakdown,
and at the unrecognized equipment type "foo" it produces a NaN total
instead of failing. -/
theorem C3_counterexample :
    (calculateTotal 100 (-5) "dry_van").total = some 199.8992 ∧
    (calculateTotal 100 5000 "foo").total = none := by
  constructor
  · have h : (calculateTotal 100 (-5) "dry_van").total
        = some ((1.616 * 100 + 1.616 * 100 * 0 + (1.616 * 100 + 1.616 * 100 * 0) * 0.237 + 0) : ℚ) :=
      rfl
    rw [h]; norm_num
  · rfl

/-- C3 amended: `calculateTotal` is a pure total function that never
signals an error.  For an unrecognized equipment type it silently produces
a NaN-contaminated breakdown (equipmentCharge, fuelSurcharge and total are
NaN while baseRate and weightFactor remain ordinary numbers), and for any
weight, including non-positive weights, with a recognized equipment type it
produces an ordinary numeric breakdown; no InvalidInputError exists in the
code. -/
theorem C3_amended_never_fails (d w : ℚ) (e : String) :
    (multipliers e = none →
      (calculateTotal d w e).equipmentCharge = none ∧
      (calculateTotal d w e).fuelSurcharge = none ∧
      (calculateTotal d w e).total = none ∧
      (∃ b, (calculateTotal d w e).baseRate = some b) ∧
      (∃ wf, (calculateTotal d w e).weightFactor = some wf)) ∧
    (∀ m, multipliers e = some m →
      ∃ t, (calculateTotal d w e).total = some t) := by
  constructor
  · intro hm
    refine ⟨?_, ?_, ?_, ⟨_, rfl⟩, ⟨_, rfl⟩⟩ <;>
      simp only [calculateTotal, hm, jmul, jadd]
  · intro m hm
    refine ⟨1.616 * d + 1.616 * d * m
        + (1.616 * d + 1.616 * d * m) * (if w < 10000 then 0.237 else 0.557)
        + (if w > 10000 then ((w - 10000) / 100) * 0.1 else 0), ?_⟩
    simp only [calculateTotal, hm, jmul, jadd]

/-- C3 amended witness: instantiated at the unrecognized type "foo" with
distance 100 and weight 5000. -/
theorem C3_amended_never_fails_witness :
    (calculateTotal 100 5000 "foo").equipmentCharge = none ∧
    (calculateTotal 100 5000 "foo").fuelSurcharge = none ∧
    (calculateTotal 100 5000 "foo").total = none ∧
    (∃ b, (calculateTotal 100 5000 "foo").baseRate = some b) ∧
    (∃ wf, (calculateTotal 100 5000 "foo").weightFactor = some wf) :=
  (C3_amended_never_fails 100 5000 "foo").1 rfl

/-- A quote record as assembled by the API handler (part_000, lines 536 to
545): the request fields followed by distance, days and the spread
breakdown fields. -/
structure Quote where
  origin : String
  destination : String
  equipmentType : String
  weight : ℚ
  pickupDate : ℕ
  distance : ℚ
  days : ℤ
  total : JSNum
  baseRate : JSNum
  weightFactor : JSNum
  fuelSurcharge : JSNum
  equipmentCharge : JSNum
deriving DecidableEq

/-- The order tested by the `sortQuotes` comparator (part_000, lines 18 to
20): the numeric value of the parsed pickup date. -/
def qle (a b : Quote) : Prop := a.pickupDate ≤ b.pickupDate

instance : DecidableRel qle := fun a b =>
  inferInstanceAs (Decidable (a.pickupDate ≤ b.pickupDate))

instance : IsTotal Quote qle := ⟨fun a b => Nat.le_total a.pickupDate b.pickupDate⟩

instance : IsTrans Quote qle := ⟨fun _ _ _ => Nat.le_trans⟩

/-- Strict version of the comparator order, used to show that sorted
permutations with pairwise distinct dates coincide. -/
def qlt (a b : Quote) : Prop := a.pickupDate < b.pickupDate

instance : IsAntisymm Quote qlt :=
  ⟨fun _ _ h1 h2 => absurd (Nat.lt_trans h1 h2) (Nat.lt_irrefl _)⟩

/-- The ledger sorting step `array.sort(sortQuotes)`.  `Array.prototype.sort`
is stable (ECMAScript 2019), and a stable sort under a fixed total preorder
has a unique result, so the stable `List.insertionSort` computes the same
list. -/
def sortQuotes (l : List Quote) : List Quote := l.insertionSort qle

/-- A sequence of quote creations as performed by `handleCreateQuote`
(part_000, line 142): each new quote is prepended to the current ledger and
the result re-sorted, starting from an empty ledger. -/
def ledgerOfInserts (qs : List Quote) : List Quote :=
  qs.foldl (fun l q => sortQuotes (q :: l)) []

lemma sortQuotes_sorted (l : List Quote) : (sortQuotes l).Sorted qle :=
  List.sorted_insertionSort qle l

lemma sortQuotes_perm (l : List Quote) : List.Perm (sortQuotes l) l :=
  List.perm_insertionSort qle l

lemma ledger_foldl_perm :
    ∀ (qs acc : List Quote),
      List.Perm (qs.foldl (fun l q => sortQuotes (q :: l)) acc) (qs ++ acc)
  | [], acc => by simp
  | q :: qs, acc =>
    (ledger_foldl_perm qs (sortQuotes (q :: acc))).trans
      (((sortQuotes_perm (q :: acc)).append_left qs).trans List.perm_middle)

lemma ledgerOfInserts_perm (qs : List Quote) : List.Perm (ledgerOfInserts qs) qs := by
  simpa [ledgerOfInserts] using ledger_foldl_perm qs []

lemma ledger_foldl_sorted :
    ∀ (qs acc : List Quote), acc.Sorted qle →
      (qs.foldl (fun l q => sortQuotes (q :: l)) acc).Sorted qle
  | [], _, h => h
  | _ :: qs, _, _ => ledger_foldl_sorted qs _ (sortQuotes_sorted _)

/-- A concrete quote used as test data in counterexamples and witnesses. -/
def mkTestQuote (o : String) (pd : ℕ) : Quote :=
  { origin := o, destination := "Dest", equipmentType := "dry_van", weight := 1,
    pickupDate := pd, distance := 0, days := 1, total := some 0, baseRate := some 0,
    weightFactor := some 0, fuelSurcharge := some 0, equipmentCharge := some 0 }

/-- C2 counterexample: two distinct quotes with the same pickupDate.
Inserting the first and then the second leaves the later-inserted quote
FIRST: the new quote is prepended before the stable sort, so ties come out
most-recent-first, not earlier-inserted-first as claimed. -/
theorem C2_counterexample :
    (mkTestQuote "first" 5).pickupDate = (mkTestQuote "second" 5).pickupDate ∧
    mkTestQuote "first" 5 ≠ mkTestQuote "second" 5 ∧
    ledgerOfInserts [mkTestQuote "first" 5, mkTestQuote "second" 5]
      = [mkTestQuote "second" 5, mkTestQuote "first" 5] := by
  refine ⟨rfl, ?_, rfl⟩
  intro h
  exact absurd (congrArg Quote.origin h) (by decide)

/-- C2 amended: every sequence of insertions yields a ledger sorted
ascending by pickupDate, and for distinct pickupDates the result does not
depend on insertion order; but two quotes with identical pickupDate appear
in REVERSE insertion order (most recently inserted first), because each new
quote is prepended before the stable sort.  The third part makes the
placement exact: inserting q into a sorted ledger puts it after the quotes
with strictly earlier dates and before every quote with the same or a later
date. -/
theorem C2_amended_sorted_stable :
    (∀ qs : List Quote, (ledgerOfInserts qs).Sorted qle) ∧
    (∀ qs qs' : List Quote, qs.Perm qs' →
      qs.Pairwise (fun a b => a.pickupDate ≠ b.pickupDate) →
      ledgerOfInserts qs = ledgerOfInserts qs') ∧
    (∀ (q : Quote) (l : List Quote), l.Sorted qle →
      sortQuotes (q :: l)
        = (l.takeWhile fun b => ¬ qle q b) ++ q :: (l.dropWhile fun b => ¬ qle q b)) := by
  have hsorted : ∀ qs : List Quote, (ledgerOfInserts qs).Sorted qle := fun qs =>
    ledger_foldl_sorted qs [] List.sorted_nil
  refine ⟨hsorted, ?_, ?_⟩
  · intro qs qs' hperm hnodup
    have h1 : List.Perm (ledgerOfInserts qs) (ledgerOfInserts qs') :=
      ((ledgerOfInserts_perm qs).trans hperm).trans (ledgerOfInserts_perm qs').symm
    have hne : ∀ {x y : Quote},
        x.pickupDate ≠ y.pickupDate → y.pickupDate ≠ x.pickupDate := fun h => h.symm
    have hn1 : (ledgerOfInserts qs).Pairwise
        (fun a b => a.pickupDate ≠ b.pickupDate) :=
      ((ledgerOfInserts_perm qs).pairwise_iff hne).mpr hnodup
    have hn2 : (ledgerOfInserts qs').Pairwise
        (fun a b => a.pickupDate ≠ b.pickupDate) :=
      ((ledgerOfInserts_perm qs').pairwise_iff hne).mpr
        ((hperm.pairwise_iff hne).mp hnodup)
    have hlt1 : (ledgerOfInserts qs).Pairwise qlt :=
      ((hsorted qs).and hn1).imp fun h => Nat.lt_of_le_of_ne h.1 h.2
    have hlt2 : (ledgerOfInserts qs').Pairwise qlt :=
      ((hsorted qs').and hn2).imp fun h => Nat.lt_of_le_of_ne h.1 h.2
    exact List.eq_of_perm_of_sorted h1 hlt1 hlt2
  · intro q l hl
    have h := List.insertionSort_cons_eq_take_drop (r := qle) q l
    rw [sortQuotes, h, hl.insertionSort_eq]

/-- C2 amended witness: order independence for two distinct dates, and the
exact placement of an insertion into a sorted singleton ledger with the
same date (the new quote lands first). -/
theorem C2_amended_witness :
    ledgerOfInserts [mkTestQuote "a" 1, mkTestQuote "b" 2]
      = ledgerOfInserts [mkTestQuote "b" 2, mkTestQuote "a" 1] ∧
    sortQuotes (mkTestQuote "b" 1 :: [mkTestQuote "a" 1])
      = ([mkTestQuote "a" 1].takeWhile fun b => ¬ qle (mkTestQuote "b" 1) b)
        ++ mkTestQuote "b" 1
          :: ([mkTestQuote "a" 1].dropWhile fun b => ¬ qle (mkTestQuote "b" 1) b) := by
  constructor
  · refine C2_amended_sorted_stable.2.1 _ _
      (List.Perm.swap (mkTestQuote "b" 2) (mkTestQuote "a" 1) []) ?_
    refine List.Pairwise.cons ?_ (List.pairwise_singleton _ _)
    intro b hb
    rw [List.mem_singleton] at hb
    subst hb
    decide
  · exact C2_amended_sorted_stable.2.2 (mkTestQuote "b" 1) [mkTestQuote "a" 1]
      (List.sorted_singleton _)

/-- Outcome of one call to the Distance Matrix collaborator: element
distance in metres, a ZERO_RESULTS status, or a network/shape failure
(rejected fetch or an exception while reading the response). -/
inductive CollabResult where
  | ok (metres : ℚ)
  | zeroResults
  | failure
deriving DecidableEq

/-- A JavaScript value as observed by the handler after distance
resolution: a number, `null`, or `undefined`. -/
inductive JSVal where
  | num (q : ℚ)
  | null
  | undefined
deriving DecidableEq

/-- Loose equality `x == null`, true for both `null` and `undefined`. -/
def isLooseNull : JSVal → Prop
  | .num _ => False
  | .null => True
  | .undefined => True

instance : (v : JSVal) → Decidable (isLooseNull v)
  | .num _ => inferInstanceAs (Decidable False)
  | .null => inferInstanceAs (Decidable True)
  | .undefined => inferInstanceAs (Decidable True)

/-- The resolver `getDistance` (part_000, lines 468 to 479): on a route it
converts metres to kilometres; on ZERO_RESULTS it returns `null`; on any
error the catch handler logs and makes the promise resolve to `undefined`.
Exactly one fetch is issued per call and there is no retry. -/
def getDistance (collab : CollabResult) : JSVal :=
  match collab with
  | .ok metres => .num (metres / 1000)
  | .zeroResults => .null
  | .failure => .undefined

/-- Response of the API route: an error payload with an HTTP status, or a
201 with the created quote. -/
inductive HandlerResult where
  | apiError (status : ℕ) (msg : String)
  | created (q : Quote)
deriving DecidableEq

/-- The no-route error message of the handler (part_000, line 532). -/
def routeMsg (origin destination : String) : String :=
  "No route between " ++ origin ++ " and " ++ destination ++ " available."

/-- The quote object assembled by the handler (part_000, lines 536 to 545)
from the request fields, the resolved distance `d` in kilometres, the
derived duration and the spread `calculateTotal` breakdown. -/
def buildQuote (origin destination equipmentType : String) (w : ℚ) (pd : ℕ) (d : ℚ) :
    Quote :=
  let b := calculateTotal d w equipmentType
  { origin := origin, destination := destination, equipmentType := equipmentType,
    weight := w, pickupDate := pd, distance := d,
    days := if d = 0 then 1 else ⌈d / 541⌉,
    total := b.total, baseRate := b.baseRate, weightFactor := b.weightFactor,
    fuelSurcharge := b.fuelSurcharge, equipmentCharge := b.equipmentCharge }

/-- Field check of the handler (part_000, line 522): a field is rejected
when falsy, which for the weight number also rejects 0 and NaN (the NaN
case is the surrounding match arm). -/
def handlerMissing (origin destination equipmentType : String) (w : ℚ) : Prop :=
  origin = "" ∨ destination = "" ∨ equipmentType = "" ∨ w = 0

instance (origin destination equipmentType : String) (w : ℚ) :
    Decidable (handlerMissing origin destination equipmentType w) := by
  unfold handlerMissing; infer_instance

/-- The API route `handler` (part_000, lines 515 to 553) on a POST request,
returning the response together with the number of external Distance
Matrix calls it made (0 or 1).  A `none` weight is the NaN sent when the
client form contained a non-numeric weight string; a `none` pickupDate is
the empty date string; both are falsy and fail the field check. -/
def handler (origin destination equipmentType : String) (weight : Option ℚ)
    (pickupDate : Option ℕ) (cacheDistance : Option ℚ) (collab : CollabResult) :
    HandlerResult × ℕ :=
  match weight, pickupDate with
  | some w, some pd =>
    if handlerMissing origin destination equipmentType w then
      (.apiError 400 "All fields are required.", 0)
    else
      let resolved : JSVal × ℕ :=
        match cacheDistance with
        | none => (getDistance collab, 1)
        | some c => (.num c, 0)
      if isLooseNull resolved.1 then
        (.apiError 400 (routeMsg origin destination), resolved.2)
      else
        match resolved with
        | (.num d, calls) =>
          (.created (buildQuote origin destination equipmentType w pd d), calls)
        | (_, calls) => (.apiError 400 (routeMsg origin destination), calls)
  | _, _ => (.apiError 400 "All fields are required.", 0)

/-- A weight form field, observed through its truthiness (empty string is
falsy) and its `parseFloat` value (`none` is NaN). -/
structure StrNum where
  truthy : Bool
  val : Option ℚ
deriving DecidableEq

/-- The form state of the page relevant to `handleCreateQuote`: the
confirmed origin/destination, the select and date values, the weight
field, and the raw text-input values used by the selection guard. -/
structure FormState where
  origin : String
  destination : String
  equipmentType : String
  weight : StrNum
  pickupDate : Option ℕ
  originInputValue : String
  destinationInputValue : String
deriving DecidableEq

/-- First client validation (part_000, line 93): some required field is
falsy. -/
def missingFields (f : FormState) : Prop :=
  f.origin = "" ∨ f.destination = "" ∨ f.equipmentType = "" ∨
    f.weight.truthy = false ∨ f.pickupDate = none

instance (f : FormState) : Decidable (missingFields f) := by
  unfold missingFields; infer_instance

/-- Second client validation (part_000, line 96): `parseFloat(weight) <= 0`,
which is false for a NaN parse. -/
def jsLeZero : JSNum → Prop
  | some w => w ≤ 0
  | none => False

instance : (v : JSNum) → Decidable (jsLeZero v)
  | some w => inferInstanceAs (Decidable (w ≤ 0))
  | none => inferInstanceAs (Decidable False)

/-- Third client validation (part_000, line 99): the text inputs must still
equal the confirmed selections. -/
def locationMismatch (f : FormState) : Prop :=
  f.origin ≠ f.originInputValue ∨ f.destination ≠ f.destinationInputValue

instance (f : FormState) : Decidable (locationMismatch f) := by
  unfold locationMismatch; infer_instance

/-- The distance cache slice of localStorage: entries keyed by the literal
string origin ++ "-" ++ destination; setItem prepends (first match wins on
lookup, so a prepend is an overwrite). -/
abbrev Cache := List (String × ℚ)

/-- Outcome of `handleCreateQuote` as observed by the page. -/
inductive ClientOutcome where
  | validationError (msg : String)
  | serverError (msg : String)
  | ok (q : Quote)
deriving DecidableEq

/-- State after one `handleCreateQuote` run: the quotes list (component
state and the persisted quotes key are always written together with the
same value), the distance cache, the number of external calls made, and
the outcome. -/
structure ClientResult where
  quotes : List Quote
  cache : Cache
  externalCalls : ℕ
  outcome : ClientOutcome
deriving DecidableEq

/-- The request portion of `handleCreateQuote` (part_000, lines 108 to
145): read the cached distance, call the API, surface an error response,
else write the distance through to both cache directions when the route is
new and the distance truthy, and prepend-and-sort the new quote into the
persisted ledger. -/
def clientRequest (f : FormState) (quotes : List Quote) (cache : Cache)
    (collab : CollabResult) : ClientResult :=
  let cacheDistance := cache.lookup (f.origin ++ "-" ++ f.destination)
  match handler f.origin f.destination f.equipmentType f.weight.val
      f.pickupDate cacheDistance collab with
  | (.apiError _ msg, calls) => ⟨quotes, cache, calls, .serverError msg⟩
  | (.created q, calls) =>
    let newCache :=
      if cacheDistance = none ∧ ¬ q.distance = 0 then
        (f.destination ++ "-" ++ f.origin, q.distance) ::
          (f.origin ++ "-" ++ f.destination, q.distance) :: cache
      else cache
    ⟨sortQuotes (q :: quotes), newCache, calls, .ok q⟩

/-- The client `handleCreateQuote` (part_000, lines 89 to 153): the three
validations, then the request. -/
def handleCreateQuote (f : FormState) (quotes : List Quote) (cache : Cache)
    (collab : CollabResult) : ClientResult :=
  if missingFields f then
    ⟨quotes, cache, 0, .validationError "Please fill in all required fields."⟩
  else if jsLeZero f.weight.val then
    ⟨quotes, cache, 0, .validationError "Invalid weight value."⟩
  else if locationMismatch f then
    ⟨quotes, cache, 0, .validationError "Invalid locations, please select from dropdown."⟩
  else
    clientRequest f quotes cache collab

/-- A form on which all three client validations pass with an actual
positive weight: this is exactly the situation in which the request is
sent and the handler builds a quote or reports a route problem. -/
def formValid (f : FormState) : Prop :=
  f.origin ≠ "" ∧ f.destination ≠ "" ∧ f.equipmentType ≠ "" ∧
    f.weight.truthy = true ∧ f.pickupDate ≠ none ∧
    (∃ w, f.weight.val = some w ∧ 0 < w) ∧
    f.origin = f.originInputValue ∧ f.destination = f.destinationInputValue

lemma buildQuote_distance (o dst e : String) (w : ℚ) (pd : ℕ) (d : ℚ) :
    (buildQuote o dst e w pd d).distance = d := rfl

lemma buildQuote_days (o dst e : String) (w : ℚ) (pd : ℕ) (d : ℚ) :
    (buildQuote o dst e w pd d).days = if d = 0 then 1 else ⌈d / 541⌉ := rfl

lemma handleCreateQuote_valid (f : FormState) (ledger : List Quote) (cache : Cache)
    (collab : CollabResult) (hv : formValid f) :
    handleCreateQuote f ledger cache collab = clientRequest f ledger cache collab := by
  obtain ⟨h1, h2, h3, h4, h5, ⟨w, hwv, hwpos⟩, h6, h7⟩ := hv
  have hm : ¬ missingFields f := by
    simp only [missingFields, not_or]
    exact ⟨h1, h2, h3, by simp [h4], h5⟩
  have hz : ¬ jsLeZero f.weight.val := by
    rw [hwv]
    exact not_le.mpr hwpos
  have hmm : ¬ locationMismatch f := by
    simp only [locationMismatch, not_or, not_not]
    exact ⟨h6, h7⟩
  simp only [handleCreateQuote, if_neg hm, if_neg hz, if_neg hmm]

lemma handler_valid (o dst e : String) (w : ℚ) (pd : ℕ) (cd : Option ℚ)
    (collab : CollabResult)
    (ho : o ≠ "") (hd : dst ≠ "") (he : e ≠ "") (hw : w ≠ 0) :
    handler o dst e (some w) (some pd) cd collab =
      match cd with
      | some c => (.created (buildQuote o dst e w pd c), 0)
      | none =>
        match collab with
        | .ok m => (.created (buildQuote o dst e w pd (m / 1000)), 1)
        | .zeroResults => (.apiError 400 (routeMsg o dst), 1)
        | .failure => (.apiError 400 (routeMsg o dst), 1) := by
  have hmiss : ¬ handlerMissing o dst e w := by
    simp only [handlerMissing, not_or]
    exact ⟨ho, hd, he, hw⟩
  rcases cd with _ | c
  · rcases collab with m | _ | _ <;>
      simp [handler, hmiss, getDistance, isLooseNull]
  · simp [handler, hmiss, isLooseNull]

lemma clientRequest_hit (f : FormState) (ledger : List Quote) (cache : Cache)
    (collab : CollabResult) (w c : ℚ) (pd : ℕ)
    (hwv : f.weight.val = some w) (hpd : f.pickupDate = some pd)
    (h1 : f.origin ≠ "") (h2 : f.destination ≠ "") (h3 : f.equipmentType ≠ "")
    (hw : w ≠ 0)
    (hhit : cache.lookup (f.origin ++ "-" ++ f.destination) = some c) :
    clientRequest f ledger cache collab =
      ⟨sortQuotes (buildQuote f.origin f.destination f.equipmentType w pd c :: ledger),
       cache, 0, .ok (buildQuote f.origin f.destination f.equipmentType w pd c)⟩ := by
  rw [clientRequest]
  rw [hhit, hwv, hpd, handler_valid f.origin f.destination f.equipmentType w pd
    (some c) collab h1 h2 h3 hw]
  simp

lemma clientRequest_miss_ok (f : FormState) (ledger : List Quote) (cache : Cache)
    (m : ℚ) (w : ℚ) (pd : ℕ)
    (hwv : f.weight.val = some w) (hpd : f.pickupDate = some pd)
    (h1 : f.origin ≠ "") (h2 : f.destination ≠ "") (h3 : f.equipmentType ≠ "")
    (hw : w ≠ 0)
    (hmiss : cache.lookup (f.origin ++ "-" ++ f.destination) = none) :
    clientRequest f ledger cache (.ok m) =
      ⟨sortQuotes (buildQuote f.origin f.destination f.equipmentType w pd (m / 1000) :: ledger),
       if ¬ (m / 1000 : ℚ) = 0 then
         (f.destination ++ "-" ++ f.origin, m / 1000) ::
           (f.origin ++ "-" ++ f.destination, m / 1000) :: cache
       else cache,
       1, .ok (buildQuote f.origin f.destination f.equipmentType w pd (m / 1000))⟩ := by
  rw [clientRequest]
  rw [hmiss, hwv, hpd, handler_valid f.origin f.destination f.equipmentType w pd
    none (.ok m) h1 h2 h3 hw]
  simp [buildQuote_distance]

lemma clientRequest_miss_noroute (f : FormState) (ledger : List Quote) (cache : Cache)
    (collab : CollabResult) (w : ℚ) (pd : ℕ)
    (hwv : f.weight.val = some w) (hpd : f.pickupDate = some pd)
    (h1 : f.origin ≠ "") (h2 : f.destination ≠ "") (h3 : f.equipmentType ≠ "")
    (hw : w ≠ 0)
    (hmiss : cache.lookup (f.origin ++ "-" ++ f.destination) = none)
    (hc : collab = .zeroResults ∨ collab = .failure) :
    clientRequest f ledger cache collab =
      ⟨ledger, cache, 1, .serverError (routeMsg f.origin f.destination)⟩ := by
  rw [clientRequest]
  rw [hmiss, hwv, hpd, handler_valid f.origin f.destination f.equipmentType w pd
    none collab h1 h2 h3 hw]
  rcases hc with rfl | rfl <;> simp

/-- The same form with origin and destination (and the matching raw input
values) exchanged: the request a user makes for the reverse direction. -/
def swapForm (f : FormState) : FormState :=
  { origin := f.destination, destination := f.origin,
    equipmentType := f.equipmentType, weight := f.weight,
    pickupDate := f.pickupDate,
    originInputValue := f.destinationInputValue,
    destinationInputValue := f.originInputValue }

lemma formValid_swap (f : FormState) (hv : formValid f) : formValid (swapForm f) := by
  obtain ⟨h1, h2, h3, h4, h5, hex, h6, h7⟩ := hv
  exact ⟨h2, h1, h3, h4, h5, hex, h7, h6⟩

lemma lookup_write_both (cache : Cache) (k1 k2 : String) (v : ℚ) :
    ((k2, v) :: (k1, v) :: cache).lookup k1 = some v ∧
    ((k2, v) :: (k1, v) :: cache).lookup k2 = some v := by
  constructor
  · by_cases h : k2 = k1
    · subst h
      simp [List.lookup]
    · simp only [List.lookup]
      split <;> simp [List.lookup]
  · simp [List.lookup]

/-- A concrete valid form from A to B used by witnesses and
counterexamples. -/
def formAB : FormState :=
  { origin := "A", destination := "B", equipmentType := "dry_van",
    weight := ⟨true, some 5000⟩, pickupDate := some 7,
    originInputValue := "A", destinationInputValue := "B" }

/-- The reverse request, from B to A. -/
def formBA : FormState := swapForm formAB

lemma formValid_formAB : formValid formAB :=
  ⟨by decide, by decide, by decide, rfl, by decide, ⟨5000, rfl, by decide⟩, rfl, rfl⟩

/-- C7 counterexample: a collaborator failure produces byte-for-byte the
same handler response as the legitimate no-route outcome, so no distinct
LookupFailure is surfaced. -/
theorem C7_counterexample :
    handler "A" "B" "dry_van" (some 5000) (some 7) none .failure
      = (.apiError 400 "No route between A and B available.", 1) ∧
    handler "A" "B" "dry_van" (some 5000) (some 7) none .failure
      = handler "A" "B" "dry_van" (some 5000) (some 7) none .zeroResults :=
  ⟨rfl, rfl⟩

/-- C7 amended: when the collaborator fails, the failure is swallowed by
the catch handler and surfaced to the caller as the same no-route error as
the RouteUnavailable outcome (not as a distinct LookupFailure); there is no
automatic retry, at most one external call is made per resolution, and the
ledger and cache remain unchanged. -/
theorem C7_failure_conflated_noroute (f : FormState) (ledger : List Quote)
    (cache : Cache) (hv : formValid f)
    (hmiss : cache.lookup (f.origin ++ "-" ++ f.destination) = none) :
    handleCreateQuote f ledger cache .failure =
      ⟨ledger, cache, 1, .serverError (routeMsg f.origin f.destination)⟩ ∧
    handleCreateQuote f ledger cache .failure
      = handleCreateQuote f ledger cache .zeroResults ∧
    (∀ collab, (handleCreateQuote f ledger cache collab).externalCalls ≤ 1) := by
  obtain ⟨h1, h2, h3, h4, h5, ⟨w, hwv, hwpos⟩, h6, h7⟩ := hv
  have hv' : formValid f := ⟨h1, h2, h3, h4, h5, ⟨w, hwv, hwpos⟩, h6, h7⟩
  obtain ⟨pd, hpd⟩ := Option.ne_none_iff_exists'.mp h5
  have hw0 : w ≠ 0 := ne_of_gt hwpos
  have hfail : handleCreateQuote f ledger cache .failure =
      ⟨ledger, cache, 1, .serverError (routeMsg f.origin f.destination)⟩ := by
    rw [handleCreateQuote_valid f ledger cache .failure hv',
      clientRequest_miss_noroute f ledger cache .failure w pd hwv hpd h1 h2 h3 hw0
        hmiss (Or.inr rfl)]
  have hzero : handleCreateQuote f ledger cache .zeroResults =
      ⟨ledger, cache, 1, .serverError (routeMsg f.origin f.destination)⟩ := by
    rw [handleCreateQuote_valid f ledger cache .zeroResults hv',
      clientRequest_miss_noroute f ledger cache .zeroResults w pd hwv hpd h1 h2 h3 hw0
        hmiss (Or.inl rfl)]
  refine ⟨hfail, hzero ▸ hfail, ?_⟩
  intro collab
  rw [handleCreateQuote_valid f ledger cache collab hv']
  rcases collab with m | _ | _
  · rw [clientRequest_miss_ok f ledger cache m w pd hwv hpd h1 h2 h3 hw0 hmiss]
  · rw [clientRequest_miss_noroute f ledger cache .zeroResults w pd hwv hpd h1 h2 h3 hw0
      hmiss (Or.inl rfl)]
  · rw [clientRequest_miss_noroute f ledger cache .failure w pd hwv hpd h1 h2 h3 hw0
      hmiss (Or.inr rfl)]

/-- C7 amended witness: the failure run at the concrete A to B form with an
empty cache leaves ledger and cache untouched and reports the no-route
message after exactly one external call. -/
theorem C7_failure_conflated_noroute_witness :
    handleCreateQuote formAB [] [] .failure
      = ⟨[], [], 1, .serverError (routeMsg "A" "B")⟩ :=
  (C7_failure_conflated_noroute formAB [] [] formValid_formAB rfl).1

/-- C6 counterexample: a successful external resolution of distance 0
writes nothing to the cache (the write-through guard requires a truthy
distance), so the claimed symmetry fails: the cache stays empty and the
reverse resolution performs another external call instead of hitting the
cache. -/
theorem C6_counterexample :
    (handleCreateQuote formAB [] [] (.ok 0)).externalCalls = 1 ∧
    (∃ q, (handleCreateQuote formAB [] [] (.ok 0)).outcome = .ok q) ∧
    (handleCreateQuote formAB [] [] (.ok 0)).cache = [] ∧
    (handleCreateQuote formBA
        (handleCreateQuote formAB [] [] (.ok 0)).quotes
        (handleCreateQuote formAB [] [] (.ok 0)).cache (.ok 0)).externalCalls = 1 := by
  have hr : handleCreateQuote formAB [] [] (.ok 0) =
      ⟨sortQuotes [buildQuote "A" "B" "dry_van" 5000 7 (0 / 1000)], [], 1,
        .ok (buildQuote "A" "B" "dry_van" 5000 7 (0 / 1000))⟩ := by
    rw [handleCreateQuote_valid formAB [] [] (.ok 0) formValid_formAB,
      clientRequest_miss_ok formAB [] [] 0 5000 7 rfl rfl (by decide) (by decide)
        (by decide) (by decide) rfl, if_neg (by norm_num)]
    rfl
  have hr2 : handleCreateQuote formBA
      (sortQuotes [buildQuote "A" "B" "dry_van" 5000 7 (0 / 1000)]) [] (.ok 0) =
      ⟨sortQuotes (buildQuote "B" "A" "dry_van" 5000 7 (0 / 1000) ::
          sortQuotes [buildQuote "A" "B" "dry_van" 5000 7 (0 / 1000)]), [], 1,
        .ok (buildQuote "B" "A" "dry_van" 5000 7 (0 / 1000))⟩ := by
    rw [handleCreateQuote_valid formBA _ [] (.ok 0)
        (formValid_swap formAB formValid_formAB),
      clientRequest_miss_ok formBA _ [] 0 5000 7 rfl rfl (by decide) (by decide)
        (by decide) (by decide) rfl, if_neg (by norm_num)]
    rfl
  refine ⟨by rw [hr], ⟨_, by rw [hr]⟩, by rw [hr], ?_⟩
  rw [hr, hr2]

/-- C6 amended: a successful external resolution with a NONZERO distance
writes the kilometre value through to both the (A,B) and (B,A) cache keys,
and a subsequent resolution of (B,A) is a cache hit that returns the
identical value with no external call; when the resolved distance is 0 the
write-through is skipped entirely (see the frame property of the guard). -/
theorem C6_symmetric_writethrough (f : FormState) (ledger : List Quote)
    (cache : Cache) (m : ℚ) (hv : formValid f)
    (hmiss : cache.lookup (f.origin ++ "-" ++ f.destination) = none)
    (hm : m / 1000 ≠ (0 : ℚ)) :
    (handleCreateQuote f ledger cache (.ok m)).externalCalls = 1 ∧
    (handleCreateQuote f ledger cache (.ok m)).cache.lookup
      (f.origin ++ "-" ++ f.destination) = some (m / 1000) ∧
    (handleCreateQuote f ledger cache (.ok m)).cache.lookup
      (f.destination ++ "-" ++ f.origin) = some (m / 1000) ∧
    (∃ q, (handleCreateQuote f ledger cache (.ok m)).outcome = .ok q ∧
      q.distance = m / 1000) ∧
    (∀ collab2 : CollabResult,
      (handleCreateQuote (swapForm f)
          (handleCreateQuote f ledger cache (.ok m)).quotes
          (handleCreateQuote f ledger cache (.ok m)).cache collab2).externalCalls = 0 ∧
      ∃ q2, (handleCreateQuote (swapForm f)
          (handleCreateQuote f ledger cache (.ok m)).quotes
          (handleCreateQuote f ledger cache (.ok m)).cache collab2).outcome = .ok q2 ∧
        q2.distance = m / 1000) := by
  obtain ⟨h1, h2, h3, h4, h5, ⟨w, hwv, hwpos⟩, h6, h7⟩ := hv
  have hv' : formValid f := ⟨h1, h2, h3, h4, h5, ⟨w, hwv, hwpos⟩, h6, h7⟩
  obtain ⟨pd, hpd⟩ := Option.ne_none_iff_exists'.mp h5
  have hw0 : w ≠ 0 := ne_of_gt hwpos
  have hr : handleCreateQuote f ledger cache (.ok m) =
      ⟨sortQuotes (buildQuote f.origin f.destination f.equipmentType w pd (m / 1000) :: ledger),
       (f.destination ++ "-" ++ f.origin, m / 1000) ::
         (f.origin ++ "-" ++ f.destination, m / 1000) :: cache,
       1, .ok (buildQuote f.origin f.destination f.equipmentType w pd (m / 1000))⟩ := by
    rw [handleCreateQuote_valid f ledger cache (.ok m) hv',
      clientRequest_miss_ok f ledger cache m w pd hwv hpd h1 h2 h3 hw0 hmiss,
      if_pos hm]
  refine ⟨by rw [hr], ?_, ?_, ⟨_, by rw [hr], rfl⟩, ?_⟩
  · rw [hr]
    exact (lookup_write_both cache _ _ _).1
  · rw [hr]
    exact (lookup_write_both cache _ _ _).2
  · intro collab2
    have hv2 : formValid (swapForm f) :=
      formValid_swap f hv'
    have hhit : ((handleCreateQuote f ledger cache (.ok m)).cache).lookup
        ((swapForm f).origin ++ "-" ++ (swapForm f).destination) = some (m / 1000) := by
      rw [hr]
      exact (lookup_write_both cache _ _ _).2
    rw [handleCreateQuote_valid (swapForm f) _ _ collab2 hv2,
      clientRequest_hit (swapForm f) _ _ collab2 w (m / 1000) pd hwv hpd h2 h1 h3 hw0 hhit]
    exact ⟨rfl, ⟨_, rfl, rfl⟩⟩

/-- C6 amended witness: the nonzero run at the concrete A to B form with
2000 metres writes 2 km under both keys. -/
theorem C6_symmetric_writethrough_witness :
    (handleCreateQuote formAB [] [] (.ok 2000)).cache.lookup ("A" ++ "-" ++ "B")
      = some (2000 / 1000) ∧
    (handleCreateQuote formAB [] [] (.ok 2000)).cache.lookup ("B" ++ "-" ++ "A")
      = some (2000 / 1000) :=
  ⟨(C6_symmetric_writethrough formAB [] [] 2000 formValid_formAB rfl (by norm_num)).2.1,
   (C6_symmetric_writethrough formAB [] [] 2000 formValid_formAB rfl (by norm_num)).2.2.1⟩

/-- C10: when the external collaborator resolves a distance of exactly 0
km, the truthiness guard before the write-through fails, so neither cache
direction is written, the cache is left unchanged, and a subsequent
creation for the same pair performs another external lookup. -/
theorem C10_zero_distance_skips_cache (f : FormState) (ledger : List Quote)
    (cache : Cache) (hv : formValid f)
    (hmiss : cache.lookup (f.origin ++ "-" ++ f.destination) = none) :
    (handleCreateQuote f ledger cache (.ok 0)).cache = cache ∧
    (handleCreateQuote f ledger cache (.ok 0)).externalCalls = 1 ∧
    (∃ q, (handleCreateQuote f ledger cache (.ok 0)).outcome = .ok q ∧
      q.distance = 0) ∧
    (∀ ledger2 : List Quote,
      (handleCreateQuote f ledger2 cache (.ok 0)).externalCalls = 1 ∧
      (handleCreateQuote f ledger2 cache (.ok 0)).cache = cache) := by
  obtain ⟨h1, h2, h3, h4, h5, ⟨w, hwv, hwpos⟩, h6, h7⟩ := hv
  have hv' : formValid f := ⟨h1, h2, h3, h4, h5, ⟨w, hwv, hwpos⟩, h6, h7⟩
  obtain ⟨pd, hpd⟩ := Option.ne_none_iff_exists'.mp h5
  have hw0 : w ≠ 0 := ne_of_gt hwpos
  have hr : ∀ L : List Quote, handleCreateQuote f L cache (.ok 0) =
      ⟨sortQuotes (buildQuote f.origin f.destination f.equipmentType w pd (0 / 1000) :: L),
       cache, 1, .ok (buildQuote f.origin f.destination f.equipmentType w pd (0 / 1000))⟩ := by
    intro L
    rw [handleCreateQuote_valid f L cache (.ok 0) hv',
      clientRequest_miss_ok f L cache 0 w pd hwv hpd h1 h2 h3 hw0 hmiss,
      if_neg (by norm_num)]
  refine ⟨by rw [hr], by rw [hr], ⟨_, by rw [hr], ?_⟩, fun L => ⟨by rw [hr], by rw [hr]⟩⟩
  rw [buildQuote_distance]
  norm_num

/-- C10 witness: the zero-distance run at the concrete A to B form with an
empty cache makes one external call and leaves the cache empty. -/
theorem C10_zero_distance_skips_cache_witness :
    (handleCreateQuote formAB [] [] (.ok 0)).cache = [] ∧
    (handleCreateQuote formAB [] [] (.ok 0)).externalCalls = 1 :=
  ⟨(C10_zero_distance_skips_cache formAB [] [] formValid_formAB rfl).1,
   (C10_zero_distance_skips_cache formAB [] [] formValid_formAB rfl).2.1⟩

lemma handler_nan_weight (o dst e : String) (pd : Option ℕ) (cd : Option ℚ)
    (collab : CollabResult) :
    handler o dst e none pd cd collab = (.apiError 400 "All fields are required.", 0) := by
  rcases pd with _ | pd <;> rfl

lemma clientRequest_outcome_shape (f : FormState) (ledger : List Quote)
    (cache : Cache) (collab : CollabResult) :
    (∃ msg, (clientRequest f ledger cache collab).outcome = .serverError msg) ∨
    (∃ q, (clientRequest f ledger cache collab).outcome = .ok q) := by
  rw [clientRequest]
  rcases hh : handler f.origin f.destination f.equipmentType f.weight.val f.pickupDate
      (List.lookup (f.origin ++ "-" ++ f.destination) cache) collab with ⟨r, calls⟩
  cases r <;> simp

/-- C8: the client validations reject exactly a missing field, a
non-positive (or non-numeric) weight, or an origin/destination that no
longer matches the confirmed selection, and every such rejection happens
with zero external calls and no change to the ledger or the cache; on a
fully valid form no validation error is ever reported. -/
theorem C8_validation_frame (f : FormState) (ledger : List Quote) (cache : Cache)
    (collab : CollabResult) :
    (¬ formValid f →
      (handleCreateQuote f ledger cache collab).quotes = ledger ∧
      (handleCreateQuote f ledger cache collab).cache = cache ∧
      (handleCreateQuote f ledger cache collab).externalCalls = 0 ∧
      (∀ q, (handleCreateQuote f ledger cache collab).outcome ≠ .ok q)) ∧
    (formValid f →
      ∀ msg, (handleCreateQuote f ledger cache collab).outcome ≠ .validationError msg) := by
  constructor
  · intro hnv
    by_cases hm : missingFields f
    · simp [handleCreateQuote, hm]
    by_cases hz : jsLeZero f.weight.val
    · simp [handleCreateQuote, hm, hz]
    by_cases hmm : locationMismatch f
    · simp [handleCreateQuote, hm, hz, hmm]
    have hval : f.weight.val = none := by
      rcases hval : f.weight.val with _ | w
      · rfl
      exfalso
      apply hnv
      simp only [missingFields, not_or] at hm
      obtain ⟨h1, h2, h3, h4, h5⟩ := hm
      simp only [locationMismatch, not_or, not_not] at hmm
      have h4t : f.weight.truthy = true := by
        cases hb : f.weight.truthy
        · exact absurd hb h4
        · rfl
      have hwpos : 0 < w := by
        rw [hval] at hz
        exact not_le.mp hz
      exact ⟨h1, h2, h3, h4t, h5, ⟨w, hval, hwpos⟩, hmm.1, hmm.2⟩
    simp only [handleCreateQuote, if_neg hm, if_neg hz, if_neg hmm, clientRequest,
      hval, handler_nan_weight]
    exact ⟨rfl, rfl, rfl, fun q h => ClientOutcome.noConfusion h⟩
  · intro hv msg
    rw [handleCreateQuote_valid f ledger cache collab hv]
    rcases clientRequest_outcome_shape f ledger cache collab with ⟨m2, hm2⟩ | ⟨q2, hq2⟩
    · rw [hm2]
      simp
    · rw [hq2]
      simp

/-- A form that fails validation: the origin field was left empty. -/
def formBad : FormState :=
  { origin := "", destination := "B", equipmentType := "dry_van",
    weight := ⟨true, some 5000⟩, pickupDate := some 7,
    originInputValue := "", destinationInputValue := "B" }

/-- C8 witness: the empty-origin form is rejected with no external call
and no change to ledger or cache. -/
theorem C8_validation_frame_witness :
    (handleCreateQuote formBad [] [] .failure).quotes = [] ∧
    (handleCreateQuote formBad [] [] .failure).cache = [] ∧
    (handleCreateQuote formBad [] [] .failure).externalCalls = 0 :=
  ⟨((C8_validation_frame formBad [] [] .failure).1 (fun hv => hv.1 rfl)).1,
   ((C8_validation_frame formBad [] [] .failure).1 (fun hv => hv.1 rfl)).2.1,
   ((C8_validation_frame formBad [] [] .failure).1 (fun hv => hv.1 rfl)).2.2.1⟩

/-- C9: every quote created by the handler carries
days = 1 when its distance is 0 and days = ceil(distance / 541) otherwise;
in particular days is 1 at distance 0, 1 at distance 541 and 2 at
distance 542. -/
theorem C9_duration_days (o dst e : String) (w : ℚ) (pd : ℕ) (cd : Option ℚ)
    (collab : CollabResult) (q : Quote) (calls : ℕ)
    (h : handler o dst e (some w) (some pd) cd collab = (.created q, calls)) :
    q.days = (if q.distance = 0 then 1 else ⌈q.distance / 541⌉) ∧
    (q.distance = 0 → q.days = 1) ∧
    (q.distance = 541 → q.days = 1) ∧
    (q.distance = 542 → q.days = 2) := by
  have hq : ∃ d : ℚ, q = buildQuote o dst e w pd d := by
    by_cases hmiss : handlerMissing o dst e w
    · simp only [handler] at h
      rw [if_pos hmiss] at h
      simp at h
    · simp only [handler] at h
      rw [if_neg hmiss] at h
      rcases cd with _ | c
      · rcases collab with m | _ | _
        · simp [getDistance, isLooseNull] at h
          exact ⟨m / 1000, h.1.symm⟩
        · simp [getDistance, isLooseNull] at h
        · simp [getDistance, isLooseNull] at h
      · simp [isLooseNull] at h
        exact ⟨c, h.1.symm⟩
  obtain ⟨d, rfl⟩ := hq
  refine ⟨rfl, ?_, ?_, ?_⟩
  · intro h0
    have hd : d = 0 := h0
    rw [buildQuote_days, if_pos hd]
  · intro h541
    have hd : d = 541 := h541
    rw [buildQuote_days, hd]
    norm_num
  · intro h542
    have hd : d = 542 := h542
    rw [buildQuote_days, hd]
    have hc : ⌈(542 : ℚ) / 541⌉ = 2 := by
      rw [Int.ceil_eq_iff]
      constructor <;> norm_num
    rw [if_neg (by norm_num), hc]

/-- C9 witness: a handler run with cached distance 541 creates a quote with
days = 1, through the theorem. -/
theorem C9_duration_days_witness :
    ∃ (q : Quote) (calls : ℕ),
      handler "A" "B" "dry_van" (some 5000) (some 7) (some 541) .zeroResults
        = (.created q, calls) ∧ q.days = 1 := by
  refine ⟨_, _, rfl, ?_⟩
  exact (C9_duration_days "A" "B" "dry_van" 5000 7 (some 541) .zeroResults _ _ rfl).2.2.1 rfl

/-- The filter state of the page (part_000, line 60). -/
structure Filters where
  origin : String
  equipment : String
  destination : String
deriving DecidableEq

/-- JavaScript `s.includes(sub)`: substring containment. -/
def includesStr (s sub : String) : Bool := decide (sub.toList <:+: s.toList)

/-- The filter predicate of `filteredQuotes` (part_000, lines 156 to 160):
empty criteria match everything, origin and destination by
case-insensitive substring, equipment by exact equality; a falsy quote
field fails its conjunct. -/
def quoteMatches (filters : Filters) (q : Quote) : Bool :=
  (filters.origin.length == 0 ||
    (q.origin != "" && includesStr q.origin.toLower filters.origin.toLower)) &&
  (filters.destination.length == 0 ||
    (q.destination != "" && includesStr q.destination.toLower filters.destination.toLower)) &&
  (filters.equipment.length == 0 || q.equipmentType == filters.equipment)

/-- The derived filtered view (part_000, lines 156 to 160); this is the
`quotes` prop handed to the QuoteHistory component. -/
def filteredQuotes (filters : Filters) (quotes : List Quote) : List Quote :=
  quotes.filter (quoteMatches filters)

/-- QuoteHistory pagination (part_001, lines 31 to 36). -/
def itemsPerPage : ℕ := 5

/-- Start index of the current page (1-based page number). -/
def startIndex (currentPage : ℕ) : ℕ := (currentPage - 1) * itemsPerPage

/-- The slice of the (filtered) quotes shown on the current page
(part_001, line 36). -/
def currentQuotes (quotes : List Quote) (currentPage : ℕ) : List Quote :=
  (quotes.drop (startIndex currentPage)).take itemsPerPage

/-- The `deleteQuote` callback of the page (part_000, lines 79 to 84): it
splices the given index out of the RAW quotes state and persists the
result (state and the stored quotes key are written with the same list). -/
def deleteQuote (index : ℕ) (quotes : List Quote) : List Quote :=
  quotes.eraseIdx index

/-- The delete-button handler of QuoteHistory (part_001, lines 219 to 228):
the in-page index is mapped back by `startIndex` to an index into the
FILTERED list (the `quotes` prop), and `deleteQuote` is then called with
that filtered-view index against the raw quotes state. -/
def historyDelete (filters : Filters) (allQuotes : List Quote)
    (currentPage pageIdx : ℕ) : List Quote :=
  deleteQuote (pageIdx + startIndex currentPage) allQuotes

/-- A quote invisible to the reefer filter. -/
def c1Hidden : Quote :=
  { origin := "Toronto", destination := "Ottawa", equipmentType := "dry_van",
    weight := 1000, pickupDate := 10, distance := 100, days := 1,
    total := some 0, baseRate := some 0, weightFactor := some 0,
    fuelSurcharge := some 0, equipmentCharge := some 0 }

/-- The quote the reefer filter displays. -/
def c1Shown : Quote :=
  { origin := "Montreal", destination := "Quebec", equipmentType := "reefer",
    weight := 2000, pickupDate := 20, distance := 200, days := 1,
    total := some 0, baseRate := some 0, weightFactor := some 0,
    fuelSurcharge := some 0, equipmentCharge := some 0 }

/-- Filtering the history down to reefer quotes only. -/
def c1Filters : Filters := { origin := "", equipment := "reefer", destination := "" }

/-- C1: with the reefer filter active, the view on page 1 displays exactly
`c1Shown` at view index 0, yet pressing delete there erases raw index 0 of
the unfiltered ledger: the hidden quote `c1Hidden` is removed and the
displayed quote survives.  The filtered-view index is never mapped back to
the underlying ledger position, so the claim fails whenever the filter
hides an earlier entry (with no filter the two indexings agree). -/
theorem C1_filtered_delete_wrong_quote :
    currentQuotes (filteredQuotes c1Filters [c1Hidden, c1Shown]) 1 = [c1Shown] ∧
    historyDelete c1Filters [c1Hidden, c1Shown] 1 0 = [c1Shown] ∧
    c1Hidden ≠ c1Shown := by
  refine ⟨rfl, rfl, ?_⟩
  intro h
  exact absurd (congrArg Quote.equipmentType h) (by decide)

end FreightQuote
